import Mathlib

/-!
Verification of the story streaming / mutation layer of the repository.

The definitions below are a shallow embedding of the Go source:
* `src/unnamed/part_000` — the `storyRoutes` HTTP handlers (streaming,
  VTT sidecars, captions, markers, `StoryCtx` middleware);
* `src/internal/api/resolver_mutation_story.go` — the story mutation
  resolvers (`StoryDestroy`, `StoriesDestroy`, `StoryMerge`,
  `StoryUpdate` / `storyUpdate`).

HTTP handlers are modelled as functions producing a trace (`List HEvent`)
of everything the handler writes to the response or delegates to a
collaborator (the stream manager, static file server, placeholder image).
Mutation resolvers produce a result plus a trace of `MEvent`s; the
transaction wrapper `withTxn` appends a `commit` event exactly when the
transaction body succeeds, mirroring `r.withTxn`.

Collaborators that live outside the given source (database finders,
`ffprobe` container detection, `strconv.ParseFloat`, subtitle parsing,
path builders, the store behind `UpdatePartial`) are modelled as oracle
fields of an environment record; the handler logic translated here is
exactly the branching structure of the Go code.
-/

deriving instance DecidableEq for Except

/-- Go `strconv.Atoi` (= `ParseInt(s, 10, 0)` on a 64-bit platform):
optional sign, at least one decimal digit, 64-bit range; `none` models a
non-nil error. -/
def goAtoi (s : String) : Option Int :=
  let signDigits : Int × List Char :=
    match s.toList with
    | '+' :: rest => (1, rest)
    | '-' :: rest => (-1, rest)
    | rest => (1, rest)
  let sign := signDigits.1
  let digits := signDigits.2
  if digits = [] then none
  else if digits.all Char.isDigit then
    let v : Int := sign * Int.ofNat (digits.foldl (fun a c => a * 10 + (c.toNat - 48)) 0)
    if v < -(2 ^ 63) ∨ 2 ^ 63 - 1 < v then none else some v
  else none

/-- Go `stringslice.StringSliceToIntSlice`: converts every element with
`strconv.Atoi`, failing on the first element that does not parse. -/
def goAtoiList : List String → Option (List Int)
  | [] => some []
  | s :: rest =>
    match goAtoi s with
    | none => none
    | some v =>
      match goAtoiList rest with
      | none => none
      | some vs => some (v :: vs)

/-- Go `http.StatusText` restricted to the codes the handlers use. -/
def statusText (code : Nat) : String :=
  if code = 400 then "Bad Request"
  else if code = 404 then "Not Found"
  else if code = 503 then "Service Unavailable"
  else ""

/-- Go `int(f)` on a nonnegative-or-negative rational: truncation toward
zero, as Go float-to-int conversion does. -/
def ratTrunc (q : Rat) : Int :=
  if 0 ≤ q then q.floor else -(Rat.floor (-q))

/-- A video file associated with a story (`models.VideoFile`): the id and
the container name reported for it. -/
structure VideoFile where
  id : Int
  container : String
  deriving DecidableEq, Repr

/-- A story (`models.Story`): the fields the translated handlers read.
`hash` stands for `GetHash(config.GetVideoFileNamingAlgorithm())` and
`primaryFile` for `Files.Primary()`. -/
structure Story where
  id : Int
  hash : String
  path : String
  title : String
  primaryFile : Option VideoFile := none
  deriving DecidableEq, Repr

/-- A story marker (`models.StoryMarker`). -/
structure StoryMarker where
  id : Int
  title : String
  seconds : Rat
  primaryTagID : Int
  storyID : Int
  deriving DecidableEq, Repr

/-- A tag (`models.Tag`): only the name is read by the handlers. -/
structure Tag where
  id : Int
  name : String
  deriving DecidableEq, Repr

/-- A stored caption track (`models.VideoCaption`). -/
structure VideoCaption where
  languageCode : String
  captionType : String
  filename : String
  deriving DecidableEq, Repr

/-- Result of a read transaction: Go distinguishes `context.Canceled`
(handler returns silently) from any other error (handler answers 500). -/
inductive DbErr where
  | canceled
  | fail (msg : String)
  deriving DecidableEq, Repr

/-- The stream formats of `pkg/ffmpeg` used by the story routes. -/
inductive StreamFormat where
  | mp4
  | webm
  | mkv
  | hls
  | dashVideo
  | dashAudio
  deriving DecidableEq, Repr

/-- `ffmpeg.TranscodeOptions` as built by `streamTranscode`. -/
structure TranscodeOptions where
  streamType : StreamFormat
  videoFile : VideoFile
  resolution : String
  startTime : Rat
  deriving DecidableEq, Repr

/-- `ffmpeg.StreamOptions` as built by `streamSegment`. -/
structure StreamOptions where
  streamType : StreamFormat
  videoFile : VideoFile
  resolution : String
  hash : String
  segment : String
  deriving DecidableEq, Repr

/-- One observable action of an HTTP handler, in the order performed. -/
inductive HEvent where
  | status (code : Nat)
  | body (s : String)
  | header (key value : String)
  | serveTranscode (options : TranscodeOptions)
  | serveManifest (streamType : StreamFormat) (file : VideoFile) (resolution : String)
  | serveSegment (options : StreamOptions)
  | serveFile (path : String)
  | serveContent (content : String)
  | servePlaceholder
  | runNext
  deriving DecidableEq, Repr

/-- Go `http.Error(w, msg, code)`: writes the status code, then the
message followed by a newline. -/
def httpError (msg : String) (code : Nat) : List HEvent :=
  [HEvent.status code, HEvent.body (msg ++ "\n")]

/-- Generated-artifact path builders (`manager.GetInstance().Paths`),
abstract: the handlers only thread the resulting strings through. -/
structure StoryPaths where
  spriteVtt : String → String
  spriteImage : String → String
  markerVideoPreview : String → Int → String
  markerWebpPreview : String → Int → String
  markerScreenshot : String → Int → String

/-- Environment of the story routes: collaborator oracles for everything
outside the translated file (config, stream manager presence, database
finders, ffprobe, the filesystem, subtitle conversion). -/
structure RouteEnv where
  streamManagerPresent : Bool
  parseFloat : String → Option Rat
  getVideoFileContainer : VideoFile → Option String
  getHash : Story → String
  paths : StoryPaths
  fileExists : String → Bool
  findStory : Int → Option Story
  loadPrimaryFile : Story → Except Unit Story
  findMarker : Int → Except DbErr (Option StoryMarker)
  markersByStory : Int → Except DbErr (List StoryMarker)
  findTag : Int → Except DbErr Tag
  tagsByMarker : Int → Except DbErr (List Tag)
  getCaptions : Int → Except DbErr (List VideoCaption)
  captionPath : VideoCaption → String → String
  subsToVtt : String → Except String String
  getVTTTime : Rat → String

/-- Query/url parameters of one streaming request; `r.Form.Get` yields
the empty string for an absent parameter. -/
structure StreamRequest where
  start : String := ""
  resolution : String := ""
  segment : String := ""
  lang : String := ""
  captionTypeParam : String := ""
  deriving Repr

/-- `ffmpeg.Matroska`, the container name required for MKV streaming. -/
def Matroska : String := "matroska"

/-- `storyRoutes.streamTranscode`: checks the stream manager, then the
primary file, then builds `TranscodeOptions` with the parsed `start`
(parse error discarded, yielding 0) and serves the transcode. -/
def streamTranscode (env : RouteEnv) (story : Story) (req : StreamRequest)
    (streamType : StreamFormat) : List HEvent :=
  if env.streamManagerPresent = false then
    httpError "Live transcoding disabled" 503
  else
    match story.primaryFile with
    | none => []
    | some f =>
      let ss : Rat := (env.parseFloat req.start).getD 0
      [HEvent.serveTranscode
        { streamType := streamType, videoFile := f,
          resolution := req.resolution, startTime := ss }]

/-- `storyRoutes.StreamMp4`. -/
def StreamMp4 (env : RouteEnv) (story : Story) (req : StreamRequest) : List HEvent :=
  streamTranscode env story req StreamFormat.mp4

/-- `storyRoutes.StreamWebM`. -/
def StreamWebM (env : RouteEnv) (story : Story) (req : StreamRequest) : List HEvent :=
  streamTranscode env story req StreamFormat.webm

/-- `storyRoutes.StreamMKV`: only allows MKV streaming when the primary
file's detected container is already Matroska; a detection error leaves
the zero-value container (empty string). -/
def StreamMKV (env : RouteEnv) (story : Story) (req : StreamRequest) : List HEvent :=
  match story.primaryFile with
  | none => []
  | some pf =>
    let container := (env.getVideoFileContainer pf).getD ""
    if container ≠ Matroska then
      [HEvent.status 400, HEvent.body "not an mkv file"]
    else
      streamTranscode env story req StreamFormat.mkv

/-- `storyRoutes.streamManifest` (shared by HLS and DASH). -/
def streamManifest (env : RouteEnv) (story : Story) (req : StreamRequest)
    (streamType : StreamFormat) (logName : String) : List HEvent :=
  if env.streamManagerPresent = false then
    httpError "Live transcoding disabled" 503
  else
    match story.primaryFile with
    | none => []
    | some f =>
      let _ := logName
      [HEvent.serveManifest streamType f req.resolution]

/-- `storyRoutes.StreamHLS`. -/
def StreamHLS (env : RouteEnv) (story : Story) (req : StreamRequest) : List HEvent :=
  streamManifest env story req StreamFormat.hls "HLS"

/-- `storyRoutes.StreamDASH`. -/
def StreamDASH (env : RouteEnv) (story : Story) (req : StreamRequest) : List HEvent :=
  streamManifest env story req StreamFormat.dashVideo "DASH"

/-- `storyRoutes.streamSegment` (shared by HLS/DASH segment routes). -/
def streamSegment (env : RouteEnv) (story : Story) (req : StreamRequest)
    (streamType : StreamFormat) : List HEvent :=
  if env.streamManagerPresent = false then
    httpError "Live transcoding disabled" 503
  else
    match story.primaryFile with
    | none => []
    | some f =>
      [HEvent.serveSegment
        { streamType := streamType, videoFile := f,
          resolution := req.resolution, hash := story.hash,
          segment := req.segment }]

/-- `storyRoutes.StreamHLSSegment`. -/
def StreamHLSSegment (env : RouteEnv) (story : Story) (req : StreamRequest) : List HEvent :=
  streamSegment env story req StreamFormat.hls

/-- `storyRoutes.StreamDASHVideoSegment`. -/
def StreamDASHVideoSegment (env : RouteEnv) (story : Story) (req : StreamRequest) : List HEvent :=
  streamSegment env story req StreamFormat.dashVideo

/-- `storyRoutes.StreamDASHAudioSegment`. -/
def StreamDASHAudioSegment (env : RouteEnv) (story : Story) (req : StreamRequest) : List HEvent :=
  streamSegment env story req StreamFormat.dashAudio

/-- `storyRoutes.getChapterVttTitle`: the marker title when non-empty,
otherwise the primary tag's name with each further marker tag appended
after a comma. -/
def getChapterVttTitle (env : RouteEnv) (marker : StoryMarker) : Except DbErr String :=
  if marker.title ≠ "" then Except.ok marker.title
  else
    match env.findTag marker.primaryTagID with
    | Except.error e => Except.error e
    | Except.ok primaryTag =>
      match env.tagsByMarker marker.id with
      | Except.error e => Except.error e
      | Except.ok tags =>
        Except.ok (tags.foldl (fun acc t => acc ++ ", " ++ t.name) primaryTag.name)

/-- The marker loop inside `storyRoutes.VttChapter`: builds the VTT lines
(cue number, identical start/end timestamps, title, blank line) and stops
at the first title-lookup error. -/
def vttChapterLoop (env : RouteEnv) : List StoryMarker → Nat → List String → Except DbErr (List String)
  | [], _, acc => Except.ok acc
  | marker :: rest, i, acc =>
    let acc := acc ++ [toString (i + 1)]
    let time := env.getVTTTime marker.seconds
    let acc := acc ++ [time ++ " --> " ++ time]
    match getChapterVttTitle env marker with
    | Except.error e => Except.error e
    | Except.ok vttTitle => vttChapterLoop env rest (i + 1) (acc ++ [vttTitle, ""])

/-- `storyRoutes.VttChapter`: fetches the story's markers, generates the
chapter VTT and serves it with `Content-Type: text/vtt`; a canceled
transaction returns silently, any other error answers 500. -/
def VttChapter (env : RouteEnv) (story : Story) : List HEvent :=
  match env.markersByStory story.id with
  | Except.error DbErr.canceled => []
  | Except.error (DbErr.fail msg) => httpError msg 500
  | Except.ok storyMarkers =>
    match vttChapterLoop env storyMarkers 0 ["WEBVTT", ""] with
    | Except.error DbErr.canceled => []
    | Except.error (DbErr.fail msg) => httpError msg 500
    | Except.ok vttLines =>
      [HEvent.header "Content-Type" "text/vtt",
       HEvent.serveContent (String.intercalate "\n" vttLines)]

/-- Hash selection shared by `VttThumbs` and `VttSprite`: the context
story's naming hash when the route ran under `StoryCtx`, otherwise the
`storyHash` URL parameter. -/
def vttHashOf (env : RouteEnv) (storyCtxValue : Option Story) (hashParam : String) : String :=
  match storyCtxValue with
  | some s => env.getHash s
  | none => hashParam

/-- `storyRoutes.VttThumbs`: always serves the sprite VTT file path. -/
def VttThumbs (env : RouteEnv) (storyCtxValue : Option Story) (hashParam : String) : List HEvent :=
  [HEvent.header "Content-Type" "text/vtt",
   HEvent.serveFile (env.paths.spriteVtt (vttHashOf env storyCtxValue hashParam))]

/-- `storyRoutes.VttSprite`: always serves the sprite image file path. -/
def VttSprite (env : RouteEnv) (storyCtxValue : Option Story) (hashParam : String) : List HEvent :=
  [HEvent.serveFile (env.paths.spriteImage (vttHashOf env storyCtxValue hashParam))]

/-- The matching loop inside `storyRoutes.Caption`: serves the WebVTT
conversion of the first caption matching both `lang` and `ext`, or
nothing at all when none matches. -/
def captionServe (env : RouteEnv) (s : Story) : List VideoCaption → String → String → List HEvent
  | [], _, _ => []
  | caption :: rest, lang, ext =>
    if lang ≠ caption.languageCode ∨ ext ≠ caption.captionType then
      captionServe env s rest lang ext
    else
      match env.subsToVtt (env.captionPath caption s.path) with
      | Except.error msg => httpError msg 500
      | Except.ok buf =>
        [HEvent.header "Content-Type" "text/vtt", HEvent.serveContent buf]

/-- `storyRoutes.Caption`: loads the captions of the primary file (no
primary file leaves the list empty) and delegates to the matching loop. -/
def Caption (env : RouteEnv) (s : Story) (lang ext : String) : List HEvent :=
  let captionsRes : Except DbErr (List VideoCaption) :=
    match s.primaryFile with
    | none => Except.ok []
    | some primaryFile => env.getCaptions primaryFile.id
  match captionsRes with
  | Except.error DbErr.canceled => []
  | Except.error (DbErr.fail msg) => httpError msg 500
  | Except.ok captions => captionServe env s captions lang ext

/-- `storyRoutes.CaptionLang`: reads the `lang` and `type` query
parameters and delegates to `Caption`. -/
def CaptionLang (env : RouteEnv) (s : Story) (req : StreamRequest) : List HEvent :=
  Caption env s req.lang req.captionTypeParam

/-- `storyRoutes.StoryMarkerStream`: 404 when the marker id does not
resolve (the `Atoi` error is discarded, defaulting the id to 0),
otherwise serves the marker video preview file. -/
def StoryMarkerStream (env : RouteEnv) (story : Story) (markerIdParam : String) : List HEvent :=
  let storyHash := env.getHash story
  let storyMarkerID := (goAtoi markerIdParam).getD 0
  match env.findMarker storyMarkerID with
  | Except.error DbErr.canceled => []
  | Except.error (DbErr.fail msg) => httpError msg 500
  | Except.ok none => httpError (statusText 404) 404
  | Except.ok (some storyMarker) =>
    [HEvent.serveFile (env.paths.markerVideoPreview storyHash (ratTrunc storyMarker.seconds))]

/-- `storyRoutes.StoryMarkerPreview`: 404 when the marker does not
resolve; serves the webp preview when it exists on disk and the
placeholder PNG otherwise. -/
def StoryMarkerPreview (env : RouteEnv) (story : Story) (markerIdParam : String) : List HEvent :=
  let storyHash := env.getHash story
  let storyMarkerID := (goAtoi markerIdParam).getD 0
  match env.findMarker storyMarkerID with
  | Except.error DbErr.canceled => []
  | Except.error (DbErr.fail msg) => httpError msg 500
  | Except.ok none => httpError (statusText 404) 404
  | Except.ok (some storyMarker) =>
    let fp := env.paths.markerWebpPreview storyHash (ratTrunc storyMarker.seconds)
    if env.fileExists fp = false then
      [HEvent.header "Content-Type" "image/png", HEvent.servePlaceholder]
    else
      [HEvent.serveFile fp]

/-- `storyRoutes.StoryMarkerScreenshot`: same shape as the preview route
with the screenshot path. -/
def StoryMarkerScreenshot (env : RouteEnv) (story : Story) (markerIdParam : String) : List HEvent :=
  let storyHash := env.getHash story
  let storyMarkerID := (goAtoi markerIdParam).getD 0
  match env.findMarker storyMarkerID with
  | Except.error DbErr.canceled => []
  | Except.error (DbErr.fail msg) => httpError msg 500
  | Except.ok none => httpError (statusText 404) 404
  | Except.ok (some storyMarker) =>
    let fp := env.paths.markerScreenshot storyHash (ratTrunc storyMarker.seconds)
    if env.fileExists fp = false then
      [HEvent.header "Content-Type" "image/png", HEvent.servePlaceholder]
    else
      [HEvent.serveFile fp]

/-- Story resolution inside `storyRoutes.StoryCtx`: the find error is
discarded, and a failing `LoadPrimaryFile` resets the story to nil. -/
def resolveStory (env : RouteEnv) (storyID : Int) : Option Story :=
  match env.findStory storyID with
  | none => none
  | some s =>
    match env.loadPrimaryFile s with
    | Except.error _ => none
    | Except.ok loaded => some loaded

/-- `storyRoutes.StoryCtx` middleware: 400 for an unparseable story id,
404 when the id does not resolve to a story, otherwise runs the wrapped
handler with the loaded story. -/
def StoryCtx (env : RouteEnv) (storyIdParam : String) (next : Story → List HEvent) : List HEvent :=
  match goAtoi storyIdParam with
  | none => httpError (statusText 400) 400
  | some storyID =>
    match resolveStory env storyID with
    | none => httpError (statusText 404) 404
    | some story => HEvent.runNext :: next story

/-- One observable action of a mutation resolver, in the order performed. -/
inductive MEvent where
  | killRunningStreams (storyID : Int)
  | destroyStory (storyID : Int)
  | mergeStories (sources : List Int) (destination : Int)
  | updateStoryRow (storyID : Int)
  | updateCoverRow (storyID : Int)
  | commit
  | deleterRollback
  | deleterCommit
  | postHook
  deriving DecidableEq, Repr

/-- Does the event invoke `manager.KillRunningStreams`? -/
def MEvent.isKill : MEvent → Bool
  | MEvent.killRunningStreams _ => true
  | _ => false

/-- Go `r.withTxn`: runs the transaction body and appends a `commit`
event exactly when the body returns no error. -/
def withTxn {α : Type} (body : Except String α × List MEvent) : Except String α × List MEvent :=
  match body with
  | (Except.ok a, tr) => (Except.ok a, tr ++ [MEvent.commit])
  | (Except.error e, tr) => (Except.error e, tr)

/-- Collaborator oracles of the mutation resolvers: the story repository,
the story service (whose bodies are outside the given source) and the
image/cover helpers. Events they cause are recorded by the resolvers. -/
structure MutEnv where
  findStory : Int → Except String (Option Story)
  storyFiles : Int → Except String (List VideoFile)
  serviceDestroy : Story → Except String Unit
  serviceMerge : List Int → Int → Except String Unit
  updatePartialResult : Int → Except String Story
  updateCover : Int → Except String Unit
  processImage : String → Except String String

/-- `models.StoryDestroyInput`. -/
structure StoryDestroyInput where
  id : String
  deleteGenerated : Option Bool := none
  deleteFile : Option Bool := none
  deriving Repr

/-- `models.StoriesDestroyInput`. -/
structure StoriesDestroyInput where
  ids : List String
  deleteGenerated : Option Bool := none
  deleteFile : Option Bool := none
  deriving Repr

/-- `models.StoryUpdateInput` restricted to the fields that drive the
control flow of `storyUpdate`: the id, the optional title (set/unset as
in the changeset translator), the optional primary file id (still a
string, converted with `Atoi`), and the optional cover image. The other
scalar fields are copied into the partial without further checks. -/
structure StoryUpdateInput where
  id : String
  title : Option String := none
  primaryFileID : Option String := none
  coverImage : Option String := none
  deriving Repr

/-- `StoryMergeInput`. -/
structure StoryMergeInput where
  source : List String
  destination : String
  values : Option StoryUpdateInput := none
  playHistory : Option Bool := none
  oHistory : Option Bool := none
  deriving Repr

/-- `models.StoryPartial` restricted to the fields `storyUpdate` reads
back after conversion. -/
structure StoryPartialRec where
  title : Option String := none
  primaryFileID : Option Int := none
  deriving DecidableEq, Repr

/-- `storyPartialFromInput`: converts the primary file id string with
`Atoi`, failing like `fileIDPtrFromString` on a malformed id. -/
def storyPartialFromInput (input : StoryUpdateInput) : Except String StoryPartialRec :=
  match input.primaryFileID with
  | none => Except.ok { title := input.title }
  | some s =>
    match goAtoi s with
    | none => Except.error "converting primary file id"
    | some fid => Except.ok { title := input.title, primaryFileID := some fid }

/-- `mutationResolver.storyUpdateCoverImage`: updates the cover table
only when the processed image data is non-empty. -/
def storyUpdateCoverImage (env : MutEnv) (s : Story) (coverImageData : Option String) :
    Except String Unit × List MEvent :=
  match coverImageData with
  | none => (Except.ok (), [])
  | some d =>
    if d = "" then (Except.ok (), [])
    else
      match env.updateCover s.id with
      | Except.error e => (Except.error e, [MEvent.updateCoverRow s.id])
      | Except.ok _ => (Except.ok (), [MEvent.updateCoverRow s.id])

/-- `mutationResolver.storyUpdate` (the transaction body shared by
`StoryUpdate` and `StoriesUpdate`): id conversion, story lookup, partial
construction, the empty-title-without-files check, the check that a new
primary file id is associated with the story, cover processing, and only
then the `UpdatePartial` database write. -/
def storyUpdate (env : MutEnv) (input : StoryUpdateInput) : Except String Story × List MEvent :=
  match goAtoi input.id with
  | none => (Except.error "converting id", [])
  | some storyID =>
  match env.findStory storyID with
  | Except.error e => (Except.error e, [])
  | Except.ok none => (Except.error "story not found", [])
  | Except.ok (some originalStory) =>
  match storyPartialFromInput input with
  | Except.error e => (Except.error e, [])
  | Except.ok updatedStory =>
  let titleCheck : Except String Unit :=
    match updatedStory.title with
    | some t =>
      if t = "" then
        match env.storyFiles originalStory.id with
        | Except.error e => Except.error e
        | Except.ok files =>
          if files.isEmpty then Except.error "title must be set if story has no files"
          else Except.ok ()
      else Except.ok ()
    | none => Except.ok ()
  match titleCheck with
  | Except.error e => (Except.error e, [])
  | Except.ok _ =>
  let primaryCheck : Except String Unit :=
    match updatedStory.primaryFileID with
    | none => Except.ok ()
    | some newPrimaryFileID =>
      match env.storyFiles originalStory.id with
      | Except.error e => Except.error e
      | Except.ok files =>
        if files.any (fun f => f.id = newPrimaryFileID) then Except.ok ()
        else Except.error "file not associated with story"
  match primaryCheck with
  | Except.error e => (Except.error e, [])
  | Except.ok _ =>
  let coverRes : Except String (Option String) :=
    match input.coverImage with
    | some img => (env.processImage img).map some
    | none => Except.ok none
  match coverRes with
  | Except.error e => (Except.error e, [])
  | Except.ok coverData =>
  match env.updatePartialResult storyID with
  | Except.error e => (Except.error e, [MEvent.updateStoryRow storyID])
  | Except.ok story =>
    match storyUpdateCoverImage env story coverData with
    | (Except.error e, tr) => (Except.error e, MEvent.updateStoryRow storyID :: tr)
    | (Except.ok _, tr) => (Except.ok story, MEvent.updateStoryRow storyID :: tr)

/-- `mutationResolver.getStory`: a fresh transaction refetching a story
after the post hooks ran. -/
def getStory (env : MutEnv) (id : Int) : Except String (Option Story) × List MEvent :=
  withTxn
    (match env.findStory id with
     | Except.error e => (Except.error e, [])
     | Except.ok s => (Except.ok s, []))

/-- `mutationResolver.StoryUpdate`: the `storyUpdate` body inside a
transaction, then the post hooks, then the refetch. -/
def StoryUpdate (env : MutEnv) (input : StoryUpdateInput) :
    Except String (Option Story) × List MEvent :=
  match withTxn (storyUpdate env input) with
  | (Except.error e, tr) => (Except.error e, tr)
  | (Except.ok ret, tr) =>
    let refetch := getStory env ret.id
    (refetch.1, tr ++ [MEvent.postHook] ++ refetch.2)

/-- `mutationResolver.StoryDestroy`: finds the story inside the
transaction, kills its running encoders, destroys it, and only performs
the deleter commit and post hook after the transaction committed. -/
def StoryDestroy (env : MutEnv) (input : StoryDestroyInput) : Except String Bool × List MEvent :=
  match goAtoi input.id with
  | none => (Except.error "converting id", [])
  | some storyID =>
    let txnBody : Except String Unit × List MEvent :=
      match env.findStory storyID with
      | Except.error e => (Except.error e, [])
      | Except.ok none => (Except.error "story not found", [])
      | Except.ok (some s) =>
        match env.serviceDestroy s with
        | Except.error e =>
          (Except.error e, [MEvent.killRunningStreams s.id, MEvent.destroyStory s.id])
        | Except.ok _ =>
          (Except.ok (), [MEvent.killRunningStreams s.id, MEvent.destroyStory s.id])
    match withTxn txnBody with
    | (Except.error e, tr) => (Except.error e, tr ++ [MEvent.deleterRollback])
    | (Except.ok _, tr) => (Except.ok true, tr ++ [MEvent.deleterCommit, MEvent.postHook])

/-- The per-id loop inside `StoriesDestroy`: find, kill, destroy for each
story, stopping at the first failure. -/
def storiesDestroyLoop (env : MutEnv) : List Int → Except String (List Story) × List MEvent
  | [] => (Except.ok [], [])
  | id :: rest =>
    match env.findStory id with
    | Except.error e => (Except.error e, [])
    | Except.ok none => (Except.error "story not found", [])
    | Except.ok (some s) =>
      let evs := [MEvent.killRunningStreams s.id, MEvent.destroyStory s.id]
      match env.serviceDestroy s with
      | Except.error e => (Except.error e, evs)
      | Except.ok _ =>
        match storiesDestroyLoop env rest with
        | (Except.error e, tr) => (Except.error e, evs ++ tr)
        | (Except.ok stories, tr) => (Except.ok (s :: stories), evs ++ tr)

/-- `mutationResolver.StoriesDestroy`. -/
def StoriesDestroy (env : MutEnv) (input : StoriesDestroyInput) : Except String Bool × List MEvent :=
  match goAtoiList input.ids with
  | none => (Except.error "converting ids", [])
  | some storyIDs =>
    match withTxn (storiesDestroyLoop env storyIDs) with
    | (Except.error e, tr) => (Except.error e, tr ++ [MEvent.deleterRollback])
    | (Except.ok stories, tr) =>
      (Except.ok true, tr ++ [MEvent.deleterCommit] ++ stories.map (fun _ => MEvent.postHook))

/-- `mutationResolver.StoryMerge`: converts the ids, builds the optional
partial and cover data, then merges, refetches the destination and
updates its cover inside one transaction. No kill of running streams
appears anywhere on this path in the source. -/
def StoryMerge (env : MutEnv) (input : StoryMergeInput) :
    Except String (Option Story) × List MEvent :=
  match goAtoiList input.source with
  | none => (Except.error "converting source ids", [])
  | some srcIDs =>
  match goAtoi input.destination with
  | none => (Except.error "converting destination id", [])
  | some destID =>
  let valuesRes : Except String StoryPartialRec :=
    match input.values with
    | some v => storyPartialFromInput v
    | none => Except.ok {}
  match valuesRes with
  | Except.error e => (Except.error e, [])
  | Except.ok _values =>
  let coverRes : Except String (Option String) :=
    match input.values with
    | some v =>
      match v.coverImage with
      | some img => (env.processImage img).map some
      | none => Except.ok none
    | none => Except.ok none
  match coverRes with
  | Except.error e => (Except.error e, [])
  | Except.ok coverData =>
  let txnBody : Except String Story × List MEvent :=
    match env.serviceMerge srcIDs destID with
    | Except.error e => (Except.error e, [MEvent.mergeStories srcIDs destID])
    | Except.ok _ =>
      match env.findStory destID with
      | Except.error e => (Except.error e, [MEvent.mergeStories srcIDs destID])
      | Except.ok none => (Except.error "story not found", [MEvent.mergeStories srcIDs destID])
      | Except.ok (some ret) =>
        match storyUpdateCoverImage env ret coverData with
        | (Except.error e, tr) => (Except.error e, MEvent.mergeStories srcIDs destID :: tr)
        | (Except.ok _, tr) => (Except.ok ret, MEvent.mergeStories srcIDs destID :: tr)
  match withTxn txnBody with
  | (Except.error e, tr) => (Except.error e, tr)
  | (Except.ok ret, tr) => (Except.ok (some ret), tr)

/-- Scans a mutation trace: true when a `killRunningStreams storyID`
occurs strictly before the first `commit` (vacuously true when no commit
occurs), i.e. every committed transaction in the trace was preceded by
the kill. -/
def killsBeforeCommit (storyID : Int) : List MEvent → Bool
  | [] => true
  | MEvent.commit :: _ => false
  | MEvent.killRunningStreams s :: rest =>
    if s = storyID then true else killsBeforeCommit storyID rest
  | _ :: rest => killsBeforeCommit storyID rest

/-- Concrete file fixture: an MP4-container primary file. -/
def fileW : VideoFile := { id := 10, container := "mp4" }

/-- Concrete file fixture: a Matroska-container primary file. -/
def fileMkvW : VideoFile := { id := 11, container := "matroska" }

/-- Concrete story fixture with an MP4 primary file. -/
def storyW : Story :=
  { id := 7, hash := "abc", path := "/media/s7.mp4", title := "t7", primaryFile := some fileW }

/-- Concrete story fixture with a Matroska primary file. -/
def storyMkvW : Story :=
  { id := 9, hash := "mkh", path := "/media/s9.mkv", title := "t9", primaryFile := some fileMkvW }

/-- Concrete story fixture without a primary file. -/
def storyNoFileW : Story :=
  { id := 8, hash := "nnn", path := "/media/s8", title := "t8" }

/-- Concrete marker fixture with an empty title (the tag-derived title
path). -/
def markerW : StoryMarker :=
  { id := 3, title := "", seconds := 12, primaryTagID := 21, storyID := 7 }

/-- Concrete marker fixture with a non-empty title. -/
def markerTitledW : StoryMarker :=
  { id := 4, title := "Named", seconds := 30, primaryTagID := 21, storyID := 7 }

/-- Concrete primary tag fixture. -/
def tagPrimaryW : Tag := { id := 21, name := "Primary" }

/-- Concrete secondary tag fixture. -/
def tagOtherW : Tag := { id := 22, name := "Other" }

/-- Concrete caption fixture. -/
def captionW : VideoCaption := { languageCode := "en", captionType := "srt", filename := "s7.srt" }

/-- Concrete path builders. -/
def pathsW : StoryPaths :=
  { spriteVtt := fun h => "vtt/" ++ h ++ "_thumbs.vtt",
    spriteImage := fun h => "vtt/" ++ h ++ "_sprite.jpg",
    markerVideoPreview := fun h n => "markers/" ++ h ++ "/" ++ toString n ++ ".mp4",
    markerWebpPreview := fun h n => "markers/" ++ h ++ "/" ++ toString n ++ ".webp",
    markerScreenshot := fun h n => "markers/" ++ h ++ "/" ++ toString n ++ ".jpg" }

/-- Concrete route environment: stream manager present, no generated
file on disk, one story, one marker pair, one caption. -/
def routeEnvW : RouteEnv :=
  { streamManagerPresent := true,
    parseFloat := fun s => if s = "5" then some 5 else none,
    getVideoFileContainer := fun f => some f.container,
    getHash := fun s => s.hash,
    paths := pathsW,
    fileExists := fun _ => false,
    findStory := fun i => if i = 7 then some storyW else none,
    loadPrimaryFile := fun s => Except.ok s,
    findMarker := fun i => if i = 3 then Except.ok (some markerW) else Except.ok none,
    markersByStory := fun i => if i = 7 then Except.ok [markerW, markerTitledW] else Except.ok [],
    findTag := fun i => if i = 21 then Except.ok tagPrimaryW else Except.error (DbErr.fail "tag"),
    tagsByMarker := fun _ => Except.ok [tagOtherW],
    getCaptions := fun fid => if fid = 10 then Except.ok [captionW] else Except.ok [],
    captionPath := fun c p => p ++ "/" ++ c.filename,
    subsToVtt := fun _ => Except.ok "WEBVTT-BODY",
    getVTTTime := fun q => toString q.floor }

/-- The same route environment with live transcoding disabled. -/
def routeEnvNoMgrW : RouteEnv := { routeEnvW with streamManagerPresent := false }

/-- Concrete mutation environment: one story (id 7) owning one file
(id 10); every service call succeeds. -/
def mutEnvW : MutEnv :=
  { findStory := fun i => if i = 7 then Except.ok (some storyW) else Except.ok none,
    storyFiles := fun i => if i = 7 then Except.ok [fileW] else Except.ok [],
    serviceDestroy := fun _ => Except.ok (),
    serviceMerge := fun _ _ => Except.ok (),
    updatePartialResult := fun _ => Except.ok storyW,
    updateCover := fun _ => Except.ok (),
    processImage := fun s => Except.ok s }

/-- Concrete merge input: story 9 merged into story 7. -/
def mergeInW : StoryMergeInput := { source := ["9"], destination := "7" }

/-- Concrete update input that reassigns the primary file to an
unassociated file id. -/
def updBadFileInW : StoryUpdateInput := { id := "7", primaryFileID := some "99" }

/-- Concrete update input that reassigns the primary file to the story's
own file id 10. -/
def updGoodFileInW : StoryUpdateInput := { id := "7", primaryFileID := some "10" }

/-- Comma-join as the spec phrases it: the elements separated by ", ". -/
def joinComma : List String → String
  | [] => ""
  | [x] => x
  | x :: xs => x ++ ", " ++ joinComma xs

/-- Concrete title function for the chapter VTT fixture: marker 3 gets
the tag-derived title, marker 4 its own title. -/
def titleFW (m : StoryMarker) : String :=
  if m.id = 3 then "Primary, Other" else "Named"

/-- C2: when live transcoding is disabled (the stream manager is absent),
every transcode, manifest and segment request answers 503 Service
Unavailable, and the whole response trace is that error — no encoder or
stream-manager event occurs. -/
theorem c2_disabled_service_unavailable (env : RouteEnv) (story : Story) (req : StreamRequest)
    (hmgr : env.streamManagerPresent = false) :
    (∀ streamType, streamTranscode env story req streamType =
      [HEvent.status 503, HEvent.body "Live transcoding disabled\n"])
    ∧ (∀ streamType logName, streamManifest env story req streamType logName =
      [HEvent.status 503, HEvent.body "Live transcoding disabled\n"])
    ∧ (∀ streamType, streamSegment env story req streamType =
      [HEvent.status 503, HEvent.body "Live transcoding disabled\n"]) := by
  refine ⟨fun st => ?_, fun st ln => ?_, fun st => ?_⟩ <;>
    simp [streamTranscode, streamManifest, streamSegment, hmgr, httpError]

/-- Witness for C2 at the concrete disabled environment. -/
theorem c2_disabled_service_unavailable_witness :
    streamTranscode routeEnvNoMgrW storyW {} StreamFormat.mp4 =
      [HEvent.status 503, HEvent.body "Live transcoding disabled\n"] :=
  (c2_disabled_service_unavailable routeEnvNoMgrW storyW {} (by decide)).1 StreamFormat.mp4

/-- C3: an MKV stream request on a story whose primary file's detected
container is not Matroska answers 400 with the "not an mkv file" body and
starts no transcode; and any transcode the MKV route does start has
stream type MKV and happens only when the container is Matroska. -/
theorem c3_mkv_requires_matroska (env : RouteEnv) (story : Story) (req : StreamRequest)
    (pf : VideoFile) (hpf : story.primaryFile = some pf) :
    (∀ c, env.getVideoFileContainer pf = some c → c ≠ Matroska →
      StreamMKV env story req = [HEvent.status 400, HEvent.body "not an mkv file"])
    ∧ (∀ options, HEvent.serveTranscode options ∈ StreamMKV env story req →
      (env.getVideoFileContainer pf).getD "" = Matroska
      ∧ options.streamType = StreamFormat.mkv) := by
  constructor
  · intro c hc hne
    simp [StreamMKV, hpf, hc, hne]
  · intro options hmem
    by_cases hm : (env.getVideoFileContainer pf).getD "" = Matroska
    · refine ⟨hm, ?_⟩
      simp only [StreamMKV, hpf, hm, ne_eq, not_true_eq_false, if_false] at hmem
      by_cases hmgr : env.streamManagerPresent = false
      · simp [streamTranscode, hmgr, httpError] at hmem
      · simp only [streamTranscode, hmgr, if_false, hpf, List.mem_singleton] at hmem
        cases hmem with
        | head => rfl
        | tail _ h => cases h
    · exfalso
      simp [StreamMKV, hpf, hm] at hmem

/-- Witness for C3 at the concrete MP4-container story. -/
theorem c3_mkv_requires_matroska_witness :
    StreamMKV routeEnvW storyW {} = [HEvent.status 400, HEvent.body "not an mkv file"] :=
  (c3_mkv_requires_matroska routeEnvW storyW {} fileW (by decide)).1 "mp4" (by decide) (by decide)

/-- C5 counterexample: a transcode request on a story with no primary
file does not produce an empty response when live transcoding is
disabled — the handler answers 503 instead, because the stream-manager
check precedes the primary-file check. -/
theorem c5_counterexample :
    storyNoFileW.primaryFile = none
    ∧ streamTranscode routeEnvNoMgrW storyNoFileW {} StreamFormat.mp4 ≠ []
    ∧ HEvent.status 503 ∈ streamTranscode routeEnvNoMgrW storyNoFileW {} StreamFormat.mp4 := by
  decide

/-- C5 (amended): when live transcoding is enabled and the story has no
primary file, every transcode, manifest and segment request returns with
an entirely empty response trace — nothing is written, in particular no
500 status and no serve event. -/
theorem c5_no_primary_empty_response (env : RouteEnv) (story : Story) (req : StreamRequest)
    (hmgr : env.streamManagerPresent = true) (hpf : story.primaryFile = none) :
    (∀ streamType, streamTranscode env story req streamType = [])
    ∧ (∀ streamType logName, streamManifest env story req streamType logName = [])
    ∧ (∀ streamType, streamSegment env story req streamType = []) := by
  refine ⟨fun st => ?_, fun st ln => ?_, fun st => ?_⟩ <;>
    simp [streamTranscode, streamManifest, streamSegment, hmgr, hpf]

/-- Witness for C5 (amended) at the concrete story without a primary
file. -/
theorem c5_no_primary_empty_response_witness :
    streamTranscode routeEnvW storyNoFileW {} StreamFormat.webm = [] :=
  (c5_no_primary_empty_response routeEnvW storyNoFileW {} (by decide) (by decide)).1
    StreamFormat.webm

/-- C8: a transcode request whose `start` query parameter does not parse
as a float is not rejected and is served with start time 0; a parseable
`start` value and the requested resolution are passed to the transcoder
unchanged. -/
theorem c8_start_resolution_passthrough (env : RouteEnv) (story : Story) (req : StreamRequest)
    (streamType : StreamFormat) (f : VideoFile)
    (hmgr : env.streamManagerPresent = true) (hpf : story.primaryFile = some f) :
    (env.parseFloat req.start = none →
      streamTranscode env story req streamType =
        [HEvent.serveTranscode
          { streamType := streamType, videoFile := f,
            resolution := req.resolution, startTime := 0 }])
    ∧ (∀ v, env.parseFloat req.start = some v →
      streamTranscode env story req streamType =
        [HEvent.serveTranscode
          { streamType := streamType, videoFile := f,
            resolution := req.resolution, startTime := v }]) := by
  constructor
  · intro h
    simp [streamTranscode, hmgr, hpf, h]
  · intro v h
    simp [streamTranscode, hmgr, hpf, h]

/-- Witness for C8: the unparseable start string "zz" yields start time
0, the parseable "5" is passed through. -/
theorem c8_start_resolution_passthrough_witness :
    streamTranscode routeEnvW storyW { start := "zz", resolution := "720" } StreamFormat.mp4 =
      [HEvent.serveTranscode
        { streamType := StreamFormat.mp4, videoFile := fileW,
          resolution := "720", startTime := 0 }] :=
  (c8_start_resolution_passthrough routeEnvW storyW { start := "zz", resolution := "720" }
    StreamFormat.mp4 fileW (by decide) (by decide)).1 (by decide)

/-- C7: a non-integer story id parameter answers 400 without running the
wrapped route handler; a story id that does not resolve to a story
answers 404; a marker id that does not resolve on the marker stream
route answers 404 — in each case the status is the first write and no
other byte or serve event occurs. -/
theorem c7_id_resolution_errors :
    (∀ (env : RouteEnv) (p : String) (next : Story → List HEvent), goAtoi p = none →
      StoryCtx env p next = [HEvent.status 400, HEvent.body "Bad Request\n"])
    ∧ (∀ (env : RouteEnv) (p : String) (next : Story → List HEvent) (storyID : Int),
      goAtoi p = some storyID → resolveStory env storyID = none →
      StoryCtx env p next = [HEvent.status 404, HEvent.body "Not Found\n"])
    ∧ (∀ (env : RouteEnv) (story : Story) (p : String),
      env.findMarker ((goAtoi p).getD 0) = Except.ok none →
      StoryMarkerStream env story p = [HEvent.status 404, HEvent.body "Not Found\n"]) := by
  refine ⟨?_, ?_, ?_⟩
  · intro env p next h
    simp [StoryCtx, h, httpError, statusText]
  · intro env p next storyID h1 h2
    simp [StoryCtx, h1, h2, httpError, statusText]
  · intro env story p h
    simp [StoryMarkerStream, h, httpError, statusText]

/-- Witness for C7 at the concrete malformed id "abc". -/
theorem c7_id_resolution_errors_witness :
    StoryCtx routeEnvW "abc" (fun _ => []) = [HEvent.status 400, HEvent.body "Bad Request\n"] :=
  c7_id_resolution_errors.1 routeEnvW "abc" (fun _ => []) (by decide)

/-- C4 counterexample: with the sprite VTT artifact absent from disk,
the vtt/thumbs route still serves the artifact path and never responds
with the placeholder image, refuting the claimed placeholder fallback
for the vtt routes. -/
theorem c4_counterexample :
    routeEnvW.fileExists (routeEnvW.paths.spriteVtt (vttHashOf routeEnvW (some storyW) "")) = false
    ∧ VttThumbs routeEnvW (some storyW) "" =
      [HEvent.header "Content-Type" "text/vtt", HEvent.serveFile "vtt/abc_thumbs.vtt"]
    ∧ HEvent.servePlaceholder ∉ VttThumbs routeEnvW (some storyW) "" := by
  decide

/-- C4 (amended): vtt/thumbs and vtt/sprite always serve the generated
artifact path from disk with no placeholder fallback; vtt/chapter
generates its content per request and never serves the placeholder; the
placeholder-on-missing-artifact behaviour belongs to the marker preview
route (and its screenshot sibling), which serves the file when present
and the placeholder PNG otherwise. -/
theorem c4_sidecar_artifact_serving :
    (∀ (env : RouteEnv) (storyCtxValue : Option Story) (hashParam : String),
      VttThumbs env storyCtxValue hashParam =
        [HEvent.header "Content-Type" "text/vtt",
         HEvent.serveFile (env.paths.spriteVtt (vttHashOf env storyCtxValue hashParam))])
    ∧ (∀ (env : RouteEnv) (storyCtxValue : Option Story) (hashParam : String),
      VttSprite env storyCtxValue hashParam =
        [HEvent.serveFile (env.paths.spriteImage (vttHashOf env storyCtxValue hashParam))])
    ∧ (∀ (env : RouteEnv) (story : Story) (p : String) (m : StoryMarker),
      env.findMarker ((goAtoi p).getD 0) = Except.ok (some m) →
      (env.fileExists (env.paths.markerWebpPreview (env.getHash story) (ratTrunc m.seconds)) = false →
        StoryMarkerPreview env story p =
          [HEvent.header "Content-Type" "image/png", HEvent.servePlaceholder])
      ∧ (env.fileExists (env.paths.markerWebpPreview (env.getHash story) (ratTrunc m.seconds)) = true →
        StoryMarkerPreview env story p =
          [HEvent.serveFile (env.paths.markerWebpPreview (env.getHash story) (ratTrunc m.seconds))]))
    ∧ (∀ (env : RouteEnv) (story : Story),
      HEvent.servePlaceholder ∉ VttChapter env story) := by
  refine ⟨fun env sv hp => rfl, fun env sv hp => rfl, ?_, ?_⟩
  · intro env story p m hm
    constructor
    · intro hex
      simp [StoryMarkerPreview, hm, hex]
    · intro hex
      simp [StoryMarkerPreview, hm, hex]
  · intro env story
    cases hmk : env.markersByStory story.id with
    | error e =>
      cases e <;> simp [VttChapter, hmk, httpError]
    | ok markers =>
      cases hloop : vttChapterLoop env markers 0 ["WEBVTT", ""] with
      | error e => cases e <;> simp [VttChapter, hmk, hloop, httpError]
      | ok lines => simp [VttChapter, hmk, hloop]

/-- Witness for C4 (amended): marker 3 resolves, the webp preview is
absent, and the placeholder is served. -/
theorem c4_sidecar_artifact_serving_witness :
    StoryMarkerPreview routeEnvW storyW "3" =
      [HEvent.header "Content-Type" "image/png", HEvent.servePlaceholder] :=
  ((c4_sidecar_artifact_serving.2.2.1 routeEnvW storyW "3" markerW (by decide)).1 (by decide))

/-- Characterisation of the caption loop: it serves exactly the first
caption matching both the language and the type, or nothing when none
matches. -/
theorem captionServe_eq_find (env : RouteEnv) (s : Story) (lang ext : String) :
    ∀ captions : List VideoCaption,
      captionServe env s captions lang ext =
        match captions.find? (fun c => lang == c.languageCode && ext == c.captionType) with
        | none => []
        | some caption =>
          match env.subsToVtt (env.captionPath caption s.path) with
          | Except.error msg => httpError msg 500
          | Except.ok buf =>
            [HEvent.header "Content-Type" "text/vtt", HEvent.serveContent buf] := by
  intro captions
  induction captions with
  | nil => rfl
  | cons caption rest ih =>
    by_cases hc : lang ≠ caption.languageCode ∨ ext ≠ caption.captionType
    · have hb : (lang == caption.languageCode && ext == caption.captionType) = false := by
        rcases hc with h | h <;> simp [h]
      simp only [captionServe, List.find?, hb, if_pos hc]
      exact ih
    · have hb : (lang == caption.languageCode && ext == caption.captionType) = true := by
        push_neg at hc
        simp [hc.1, hc.2]
      simp only [captionServe, List.find?, hb, if_neg hc]

/-- C6: a caption request serves the WebVTT conversion of the first
stored caption matching both the `lang` and `type` parameters with
`Content-Type: text/vtt`, and serves nothing (no error status) when no
stored caption matches both. -/
theorem c6_caption_matching (env : RouteEnv) (s : Story) (req : StreamRequest)
    (pf : VideoFile) (captions : List VideoCaption)
    (hpf : s.primaryFile = some pf)
    (hcap : env.getCaptions pf.id = Except.ok captions) :
    (captions.find?
        (fun c => req.lang == c.languageCode && req.captionTypeParam == c.captionType) = none →
      CaptionLang env s req = [])
    ∧ (∀ c v,
      captions.find?
        (fun c => req.lang == c.languageCode && req.captionTypeParam == c.captionType) = some c →
      env.subsToVtt (env.captionPath c s.path) = Except.ok v →
      CaptionLang env s req =
        [HEvent.header "Content-Type" "text/vtt", HEvent.serveContent v]) := by
  have hserve := captionServe_eq_find env s req.lang req.captionTypeParam captions
  constructor
  · intro hfind
    rw [hfind] at hserve
    simp [CaptionLang, Caption, hpf, hcap, hserve]
  · intro c v hfind hvtt
    rw [hfind] at hserve
    dsimp only at hserve
    rw [hvtt] at hserve
    dsimp only at hserve
    simp [CaptionLang, Caption, hpf, hcap, hserve]

/-- Witness for C6 at the concrete matching caption ("en"/"srt"). -/
theorem c6_caption_matching_witness :
    CaptionLang routeEnvW storyW { lang := "en", captionTypeParam := "srt" } =
      [HEvent.header "Content-Type" "text/vtt", HEvent.serveContent "WEBVTT-BODY"] :=
  (c6_caption_matching routeEnvW storyW { lang := "en", captionTypeParam := "srt" }
    fileW [captionW] (by decide) (by decide)).2 captionW "WEBVTT-BODY" (by decide) (by decide)

/-- The tag fold of `getChapterVttTitle` is exactly a comma-join of the
primary tag name followed by the other tag names. -/
theorem foldl_comma_eq_joinComma (ts : List Tag) :
    ∀ a : String,
      ts.foldl (fun acc t => acc ++ ", " ++ t.name) a = joinComma (a :: ts.map Tag.name) := by
  induction ts with
  | nil => intro a; rfl
  | cons t tl ih =>
    intro a
    simp only [List.foldl, List.map]
    rw [ih]
    cases htl : tl.map Tag.name with
    | nil => simp [joinComma]
    | cons x xs => simp [joinComma, String.append_assoc]

/-- A marker with a non-empty title titles its own cue. -/
theorem getChapterVttTitle_of_title (env : RouteEnv) (m : StoryMarker) (h : m.title ≠ "") :
    getChapterVttTitle env m = Except.ok m.title := by
  simp [getChapterVttTitle, h]

/-- A marker with an empty title is titled by the primary tag followed
by the other marker tags, comma-joined. -/
theorem getChapterVttTitle_of_tags (env : RouteEnv) (m : StoryMarker) (p : Tag) (ts : List Tag)
    (h : m.title = "") (hp : env.findTag m.primaryTagID = Except.ok p)
    (ht : env.tagsByMarker m.id = Except.ok ts) :
    getChapterVttTitle env m = Except.ok (joinComma (p.name :: ts.map Tag.name)) := by
  simp [getChapterVttTitle, h, hp, ht, foldl_comma_eq_joinComma]

/-- When every marker's title lookup succeeds, the chapter loop produces
one four-line cue per marker, numbered from the starting index. -/
theorem vttChapterLoop_ok (env : RouteEnv) (titleF : StoryMarker → String) :
    ∀ (ms : List StoryMarker) (i : Nat) (acc : List String),
      (∀ m ∈ ms, getChapterVttTitle env m = Except.ok (titleF m)) →
      vttChapterLoop env ms i acc =
        Except.ok (acc ++ ((List.enumFrom i ms).map (fun p =>
          [toString (p.1 + 1),
           env.getVTTTime p.2.seconds ++ " --> " ++ env.getVTTTime p.2.seconds,
           titleF p.2, ""])).flatten) := by
  intro ms
  induction ms with
  | nil =>
    intro i acc h
    simp [vttChapterLoop, List.enumFrom]
  | cons m tl ih =>
    intro i acc h
    have hm := h m (List.mem_cons_self _ _)
    simp only [vttChapterLoop, hm]
    rw [ih (i + 1) _ (fun x hx => h x (List.mem_cons_of_mem _ hx))]
    simp [List.enumFrom]

/-- C10: with all marker-title lookups succeeding, the chapter VTT
response is `text/vtt` content whose lines are WEBVTT, a blank line, and
then per marker (in order) the cue number counting from 1, a cue line
whose start and end timestamps are both the formatted marker seconds,
the cue title, and a blank line; the cue title is the marker's own title
when non-empty and otherwise the primary tag's name followed by the
other marker tags, comma-joined. -/
theorem c10_chapter_vtt (env : RouteEnv) (story : Story) (markers : List StoryMarker)
    (titleF : StoryMarker → String)
    (hmk : env.markersByStory story.id = Except.ok markers)
    (ht : ∀ m ∈ markers, getChapterVttTitle env m = Except.ok (titleF m)) :
    VttChapter env story =
      [HEvent.header "Content-Type" "text/vtt",
       HEvent.serveContent (String.intercalate "\n"
         (["WEBVTT", ""] ++ ((List.enumFrom 0 markers).map (fun p =>
            [toString (p.1 + 1),
             env.getVTTTime p.2.seconds ++ " --> " ++ env.getVTTTime p.2.seconds,
             titleF p.2, ""])).flatten))]
    ∧ (∀ m ∈ markers, m.title ≠ "" → titleF m = m.title)
    ∧ (∀ m ∈ markers, m.title = "" → ∀ p ts,
        env.findTag m.primaryTagID = Except.ok p →
        env.tagsByMarker m.id = Except.ok ts →
        titleF m = joinComma (p.name :: ts.map Tag.name)) := by
  refine ⟨?_, ?_, ?_⟩
  · have hloop := vttChapterLoop_ok env titleF markers 0 ["WEBVTT", ""] ht
    simp [VttChapter, hmk, hloop]
  · intro m hm hne
    have h2 := (ht m hm).symm.trans (getChapterVttTitle_of_title env m hne)
    exact Except.ok.inj h2
  · intro m hm he p ts hp hts
    have h2 := (ht m hm).symm.trans (getChapterVttTitle_of_tags env m p ts he hp hts)
    exact Except.ok.inj h2

/-- Witness for C10 at the two concrete markers: one titled by tags, one
by its own title. -/
theorem c10_chapter_vtt_witness :
    VttChapter routeEnvW storyW =
      [HEvent.header "Content-Type" "text/vtt",
       HEvent.serveContent (String.intercalate "\n"
         (["WEBVTT", ""] ++ ((List.enumFrom 0 [markerW, markerTitledW]).map (fun p =>
            [toString (p.1 + 1),
             routeEnvW.getVTTTime p.2.seconds ++ " --> " ++ routeEnvW.getVTTTime p.2.seconds,
             titleFW p.2, ""])).flatten))] :=
  (c10_chapter_vtt routeEnvW storyW [markerW, markerTitledW] titleFW
    (by decide) (by decide)).1

/-- C9: a `StoryUpdate` whose input sets the primary file id to a file
that is not associated with the story returns an error, performs no
`UpdatePartial` database write, and commits no transaction. -/
theorem c9_primary_file_must_be_associated (env : MutEnv) (input : StoryUpdateInput)
    (storyID : Int) (orig : Story) (files : List VideoFile) (fidStr : String) (fid : Int)
    (hid : goAtoi input.id = some storyID)
    (hfind : env.findStory storyID = Except.ok (some orig))
    (hpfid : input.primaryFileID = some fidStr)
    (hfid : goAtoi fidStr = some fid)
    (hfiles : env.storyFiles orig.id = Except.ok files)
    (hnot : ∀ f ∈ files, f.id ≠ fid) :
    (∃ e, (StoryUpdate env input).1 = Except.error e)
    ∧ (∀ sid, MEvent.updateStoryRow sid ∉ (StoryUpdate env input).2)
    ∧ MEvent.commit ∉ (StoryUpdate env input).2 := by
  have hpartial : storyPartialFromInput input =
      Except.ok { title := input.title, primaryFileID := some fid } := by
    simp [storyPartialFromInput, hpfid, hfid]
  have hany : (files.any fun f => f.id = fid) = false := by
    simp only [List.any_eq_false, decide_eq_true_eq]
    exact hnot
  have hcore : ∃ e, storyUpdate env input = (Except.error e, []) := by
    cases htitle : input.title with
    | none =>
      refine ⟨"file not associated with story", ?_⟩
      simp [storyUpdate, hid, hfind, hpartial, htitle, hfiles, hany]
    | some t =>
      by_cases hte : t = ""
      · by_cases hfe : files.isEmpty
        · refine ⟨"title must be set if story has no files", ?_⟩
          simp [storyUpdate, hid, hfind, hpartial, htitle, hte, hfiles, hfe, hany]
        · refine ⟨"file not associated with story", ?_⟩
          simp [storyUpdate, hid, hfind, hpartial, htitle, hte, hfiles, hfe, hany]
      · refine ⟨"file not associated with story", ?_⟩
        simp [storyUpdate, hid, hfind, hpartial, htitle, hte, hfiles, hany]
  obtain ⟨e, he⟩ := hcore
  have hSU : StoryUpdate env input = (Except.error e, []) := by
    simp [StoryUpdate, he, withTxn]
  refine ⟨⟨e, by simp [hSU]⟩, ?_, ?_⟩
  · intro sid
    simp [hSU]
  · simp [hSU]

/-- Witness for C9 at the concrete input reassigning the primary file to
the unassociated file id 99. -/
theorem c9_primary_file_must_be_associated_witness :
    MEvent.commit ∉ (StoryUpdate mutEnvW updBadFileInW).2 :=
  (c9_primary_file_must_be_associated mutEnvW updBadFileInW 7 storyW [fileW] "99" 99
    (by decide) (by decide) (by decide) (by decide) (by decide) (by decide)).2.2

/-- A trace without a commit vacuously satisfies the kill-before-commit
scan. -/
theorem killsBeforeCommit_of_no_commit (sid : Int) :
    ∀ tr : List MEvent, MEvent.commit ∉ tr → killsBeforeCommit sid tr = true := by
  intro tr
  induction tr with
  | nil => intro _; rfl
  | cons e rest ih =>
    intro h
    have hrest : MEvent.commit ∉ rest := fun hc => h (List.mem_cons_of_mem _ hc)
    cases e with
    | commit => exact absurd (List.mem_cons_self _ _) h
    | killRunningStreams s =>
      by_cases hs : s = sid
      · simp [killsBeforeCommit, hs]
      · simpa [killsBeforeCommit, hs] using ih hrest
    | destroyStory s => simpa [killsBeforeCommit] using ih hrest
    | mergeStories a b => simpa [killsBeforeCommit] using ih hrest
    | updateStoryRow s => simpa [killsBeforeCommit] using ih hrest
    | updateCoverRow s => simpa [killsBeforeCommit] using ih hrest
    | deleterRollback => simpa [killsBeforeCommit] using ih hrest
    | deleterCommit => simpa [killsBeforeCommit] using ih hrest
    | postHook => simpa [killsBeforeCommit] using ih hrest

/-- A commit-free prefix containing the kill satisfies the scan whatever
follows it. -/
theorem killsBeforeCommit_append_of_kill (sid : Int) :
    ∀ tr : List MEvent, MEvent.commit ∉ tr → MEvent.killRunningStreams sid ∈ tr →
      ∀ rest, killsBeforeCommit sid (tr ++ rest) = true := by
  intro tr
  induction tr with
  | nil => intro _ hk; cases hk
  | cons e tl ih =>
    intro hc hk rest
    have htl : MEvent.commit ∉ tl := fun h => hc (List.mem_cons_of_mem _ h)
    cases e with
    | commit => exact absurd (List.mem_cons_self _ _) hc
    | killRunningStreams s =>
      by_cases hs : s = sid
      · simp [killsBeforeCommit, hs]
      · cases hk with
        | head => exact absurd rfl hs
        | tail _ hk2 => simpa [killsBeforeCommit, hs] using ih htl hk2 rest
    | destroyStory s =>
      cases hk with
      | tail _ hk2 => simpa [killsBeforeCommit] using ih htl hk2 rest
    | mergeStories a b =>
      cases hk with
      | tail _ hk2 => simpa [killsBeforeCommit] using ih htl hk2 rest
    | updateStoryRow s =>
      cases hk with
      | tail _ hk2 => simpa [killsBeforeCommit] using ih htl hk2 rest
    | updateCoverRow s =>
      cases hk with
      | tail _ hk2 => simpa [killsBeforeCommit] using ih htl hk2 rest
    | deleterRollback =>
      cases hk with
      | tail _ hk2 => simpa [killsBeforeCommit] using ih htl hk2 rest
    | deleterCommit =>
      cases hk with
      | tail _ hk2 => simpa [killsBeforeCommit] using ih htl hk2 rest
    | postHook =>
      cases hk with
      | tail _ hk2 => simpa [killsBeforeCommit] using ih htl hk2 rest

/-- The destroy loop emits no commit event (the commit belongs to the
surrounding transaction). -/
theorem storiesDestroyLoop_no_commit (env : MutEnv) :
    ∀ ids : List Int, MEvent.commit ∉ (storiesDestroyLoop env ids).2 := by
  intro ids
  induction ids with
  | nil => simp [storiesDestroyLoop]
  | cons id tl ih =>
    cases hf : env.findStory id with
    | error e => simp [storiesDestroyLoop, hf]
    | ok os =>
      cases os with
      | none => simp [storiesDestroyLoop, hf]
      | some s =>
        cases hd : env.serviceDestroy s with
        | error e => simp [storiesDestroyLoop, hf, hd]
        | ok u =>
          cases hrec : storiesDestroyLoop env tl with
          | mk res tr =>
            have ih2 : MEvent.commit ∉ tr := by rw [hrec] at ih; exact ih
            cases res with
            | error e => simpa [storiesDestroyLoop, hf, hd, hrec] using ih2
            | ok stories => simpa [storiesDestroyLoop, hf, hd, hrec] using ih2

/-- When the destroy loop succeeds, every id it found a story for had
that story's running streams killed inside the loop trace. -/
theorem storiesDestroyLoop_kill_mem (env : MutEnv) :
    ∀ (ids : List Int) (sid : Int) (s : Story) (stories : List Story),
      sid ∈ ids → env.findStory sid = Except.ok (some s) →
      (storiesDestroyLoop env ids).1 = Except.ok stories →
      MEvent.killRunningStreams s.id ∈ (storiesDestroyLoop env ids).2 := by
  intro ids
  induction ids with
  | nil => intro sid s stories hmem; cases hmem
  | cons id tl ih =>
    intro sid s stories hmem hfind hok
    cases hf : env.findStory id with
    | error e => simp [storiesDestroyLoop, hf] at hok
    | ok os =>
      cases os with
      | none => simp [storiesDestroyLoop, hf] at hok
      | some st =>
        cases hd : env.serviceDestroy st with
        | error e => simp [storiesDestroyLoop, hf, hd] at hok
        | ok u =>
          cases hrec : storiesDestroyLoop env tl with
          | mk res tr =>
            cases res with
            | error e => simp [storiesDestroyLoop, hf, hd, hrec] at hok
            | ok stories2 =>
              cases hmem with
              | head =>
                have hst : st = s :=
                  (Option.some.inj (Except.ok.inj (hfind.symm.trans hf))).symm
                subst hst
                simp [storiesDestroyLoop, hf, hd, hrec]
              | tail _ hmem2 =>
                have hk := ih sid s stories2 hmem2 hfind (by rw [hrec])
                rw [hrec] at hk
                simp only [storiesDestroyLoop, hf, hd, hrec]
                exact List.mem_append.mpr (Or.inr hk)

/-- The cover-image helper never kills running streams. -/
theorem storyUpdateCoverImage_no_kill (env : MutEnv) (s : Story) (d : Option String) :
    ((storyUpdateCoverImage env s d).2).any MEvent.isKill = false := by
  cases d with
  | none => rfl
  | some x =>
    by_cases hx : x = ""
    · simp [storyUpdateCoverImage, hx]
    · cases hc : env.updateCover s.id with
      | error e => simp [storyUpdateCoverImage, hx, hc, MEvent.isKill]
      | ok u => simp [storyUpdateCoverImage, hx, hc, MEvent.isKill]

/-- The post-hook refetch never kills running streams. -/
theorem getStory_no_kill (env : MutEnv) (id : Int) :
    ((getStory env id).2).any MEvent.isKill = false := by
  cases hf : env.findStory id with
  | error e => simp [getStory, hf, withTxn]
  | ok s => simp [getStory, hf, withTxn, MEvent.isKill]

/-- Pointwise form of the cover-image helper's kill-freedom. -/
theorem storyUpdateCoverImage_pair_no_kill (env : MutEnv) (s : Story) (d : Option String)
    (res : Except String Unit) (tr : List MEvent)
    (h : storyUpdateCoverImage env s d = (res, tr)) :
    ∀ a ∈ tr, MEvent.isKill a = false := by
  have h2 := storyUpdateCoverImage_no_kill env s d
  rw [h] at h2
  simpa [List.any_eq_false] using h2

/-- The `storyUpdate` transaction body never kills running streams. -/
theorem storyUpdate_no_kill (env : MutEnv) (input : StoryUpdateInput) :
    ((storyUpdate env input).2).any MEvent.isKill = false := by
  unfold storyUpdate
  repeat' split
  all_goals try simp_all [MEvent.isKill, List.any_append, storyUpdateCoverImage_no_kill]
  all_goals repeat' split
  all_goals try simp_all [MEvent.isKill, List.any_append, storyUpdateCoverImage_no_kill]
  all_goals
    rename_i heq
    intro a ha
    exact storyUpdateCoverImage_pair_no_kill _ _ _ _ _ heq a ha

/-- `StoryMerge` never kills running streams anywhere on its path. -/
theorem StoryMerge_no_kill (env : MutEnv) (input : StoryMergeInput) :
    ((StoryMerge env input).2).any MEvent.isKill = false := by
  unfold StoryMerge withTxn
  repeat' split
  all_goals try simp_all [MEvent.isKill, List.any_append, storyUpdateCoverImage_no_kill]
  all_goals repeat' split
  all_goals try simp_all [MEvent.isKill, List.any_append, storyUpdateCoverImage_no_kill]
  all_goals rename_i heq
  all_goals split at heq
  all_goals rename_i hcv
  all_goals split at hcv
  all_goals
    rename_i hcv2
    simp only [Prod.mk.injEq] at heq hcv
    obtain ⟨h1, h2⟩ := heq
    obtain ⟨h3, h4⟩ := hcv
    subst h2
    subst h4
    have hall := storyUpdateCoverImage_pair_no_kill _ _ _ _ _ hcv2
    simp only [List.forall_mem_cons, List.forall_mem_append, List.forall_mem_singleton]
    first
    | exact ⟨rfl, hall⟩
    | exact ⟨⟨rfl, hall⟩, rfl⟩
    | exact ⟨trivial, hall⟩
    | exact ⟨⟨trivial, hall⟩, trivial⟩
    | simp_all [MEvent.isKill]

/-- C1 counterexample: a successful concrete `StoryMerge` commits its
transaction without ever invoking the kill-running-streams operation,
refuting the claim that the merge path issues the kill before commit
(the update path that changes the primary file likewise never kills). -/
theorem c1_counterexample :
    MEvent.commit ∈ (StoryMerge mutEnvW mergeInW).2
    ∧ (StoryMerge mutEnvW mergeInW).2.any MEvent.isKill = false := by
  decide

/-- C1 (amended): `StoryDestroy` and `StoriesDestroy` invoke
`KillRunningStreams` for every story they destroy strictly before their
transaction commits; `StoryMerge` and `StoryUpdate` (even one that
changes the primary file id) never invoke it at all. -/
theorem c1_kill_before_commit :
    (∀ (env : MutEnv) (input : StoryDestroyInput) (storyID : Int) (s : Story),
      goAtoi input.id = some storyID →
      env.findStory storyID = Except.ok (some s) →
      killsBeforeCommit s.id (StoryDestroy env input).2 = true)
    ∧ (∀ (env : MutEnv) (input : StoriesDestroyInput) (ids : List Int) (storyID : Int) (s : Story),
      goAtoiList input.ids = some ids → storyID ∈ ids →
      env.findStory storyID = Except.ok (some s) →
      killsBeforeCommit s.id (StoriesDestroy env input).2 = true)
    ∧ (∀ (env : MutEnv) (input : StoryMergeInput),
      (StoryMerge env input).2.any MEvent.isKill = false)
    ∧ (∀ (env : MutEnv) (input : StoryUpdateInput),
      (StoryUpdate env input).2.any MEvent.isKill = false) := by
  refine ⟨?_, ?_, ?_, ?_⟩
  · intro env input storyID s hid hfind
    cases hd : env.serviceDestroy s with
    | error e =>
      simp [StoryDestroy, hid, hfind, hd, withTxn, killsBeforeCommit]
    | ok u =>
      simp [StoryDestroy, hid, hfind, hd, withTxn, killsBeforeCommit]
  · intro env input ids storyID s hids hmem hfind
    cases hloop : storiesDestroyLoop env ids with
    | mk res tr =>
      have hnc : MEvent.commit ∉ tr := by
        have h2 := storiesDestroyLoop_no_commit env ids
        rwa [hloop] at h2
      cases res with
      | error e =>
        have h3 : killsBeforeCommit s.id (tr ++ [MEvent.deleterRollback]) = true := by
          refine killsBeforeCommit_of_no_commit s.id _ ?_
          simp only [List.mem_append, List.mem_singleton]
          rintro (h | h)
          · exact hnc h
          · cases h
        simpa [StoriesDestroy, hids, hloop, withTxn] using h3
      | ok stories =>
        have hkill : MEvent.killRunningStreams s.id ∈ tr := by
          have h2 := storiesDestroyLoop_kill_mem env ids storyID s stories hmem hfind
            (by rw [hloop])
          rwa [hloop] at h2
        have h3 := killsBeforeCommit_append_of_kill s.id tr hnc hkill
          ([MEvent.commit] ++ [MEvent.deleterCommit] ++ stories.map (fun _ => MEvent.postHook))
        simpa [StoriesDestroy, hids, hloop, withTxn, List.append_assoc] using h3
  · exact StoryMerge_no_kill
  · intro env input
    cases hsu : storyUpdate env input with
    | mk res tr =>
      have htr : tr.any MEvent.isKill = false := by
        have h2 := storyUpdate_no_kill env input
        rwa [hsu] at h2
      cases res with
      | error e => simpa [StoryUpdate, hsu, withTxn] using htr
      | ok ret =>
        have hg := getStory_no_kill env ret.id
        simp [StoryUpdate, hsu, withTxn, List.any_append, htr, hg, MEvent.isKill]

/-- Witness for C1 (amended): the concrete destroy of story 7 kills its
streams before the commit. -/
theorem c1_kill_before_commit_witness :
    killsBeforeCommit 7 (StoryDestroy mutEnvW { id := "7" }).2 = true :=
  c1_kill_before_commit.1 mutEnvW { id := "7" } 7 storyW (by decide) (by decide)
